import Mathlib

/-!
Shallow embedding of the STAC/WFS handler module `src/search/lib/api/wfs.js` of the
cmr-stac repository, together with proofs about its paging, link-building, error-handling
and browse-catalog logic.

External collaborators (the `cmr` module's lookup functions, `convertParams`, the granule
search, and the temporal-facet fetch) are modelled as explicit function-valued environment
records: each handler is embedded as a pure function of its request data and such an
environment, and the handler's outward effects (HTTP status, body, and the native granule
searches it issues) are returned as data.
-/

/-- A native collection record, reduced to the only field the embedded code reads
(`collections[j].id`). -/
structure CmrCollection where
  id : String
deriving DecidableEq

/-- The query object that `findCloudCollections` builds and mutates
(`provider_short_name`, `tag_key`, `page_size`, optional `concept_id`, `page_num`). -/
structure CloudQuery where
  provider_short_name : String
  tag_key : String
  page_size : Nat
  concept_id : Option (List String)
  page_num : Nat

/-- The base query assembled at the top of `findCloudCollections` (wfs.js lines 130-138):
provider, the cloud-hosting tag, page size 2000, and optional caller-supplied concept ids.
`page_num` is set by the loop; 0 stands for "not yet set". -/
def cloudBaseQuery (providerId : String) (collectionConceptIds : Option (List String)) :
    CloudQuery :=
  { provider_short_name := providerId
    tag_key := "gov.nasa.earthdatacloud.s3"
    page_size := 2000
    concept_id := collectionConceptIds
    page_num := 0 }

/-- The in-place mutation `params.page_num = i` performed before each page fetch. -/
def setPage (q : CloudQuery) (i : Nat) : CloudQuery :=
  { q with page_num := i }

/-- The query sent for page `i` of the cloud-collection paging loop. -/
def pageQuery (providerId : String) (collectionConceptIds : Option (List String))
    (i : Nat) : CloudQuery :=
  setPage (cloudBaseQuery providerId collectionConceptIds) i

/-- The paging loop of `findCloudCollections` (wfs.js lines 141-150):
`for (let i = 1; i < 10000; i++)` fetches page `i`, appends every returned record's id to
the accumulator, and breaks when a page returns fewer than 2000 records.  `fuel` is the
number of loop iterations still allowed; the result pairs the accumulated ids with the
number of page fetches performed. -/
def cloudLoop (svc : CloudQuery → List CmrCollection) (base : CloudQuery) :
    Nat → Nat → List String → List String × Nat
  | 0, _, acc => (acc, 0)
  | fuel + 1, i, acc =>
    let colls := svc (setPage base i)
    let acc2 := acc ++ colls.map CmrCollection.id
    if colls.length < 2000 then
      (acc2, 1)
    else
      let r := cloudLoop svc base fuel (i + 1) acc2
      (r.1, r.2 + 1)

/-- `findCloudCollections(providerId, collectionConceptIds)` (wfs.js lines 129-153),
with the external `cmr.findCollections` passed in as `svc`.  The loop bound
`i < 10000` starting from `i = 1` allows at most 9999 iterations. -/
def findCloudCollections (svc : CloudQuery → List CmrCollection) (providerId : String)
    (collectionConceptIds : Option (List String)) : List String × Nat :=
  cloudLoop svc (cloudBaseQuery providerId collectionConceptIds) 9999 1 []

/-- The ids of pages `i, i+1, ..., i+n-1`, concatenated in upstream order. -/
def pagesJoin (svc : CloudQuery → List CmrCollection) (base : CloudQuery) :
    Nat → Nat → List String
  | _, 0 => []
  | i, n + 1 =>
    (svc (setPage base i)).map CmrCollection.id ++ pagesJoin svc base (i + 1) n

/-- Stub upstream for the spec's paging test: pages 1 and 2 return a full 2000 records,
page 3 returns 500, later pages are empty. -/
def stubSvc3 : CloudQuery → List CmrCollection := fun q =>
  if q.page_num = 1 then List.replicate 2000 { id := "a" }
  else if q.page_num = 2 then List.replicate 2000 { id := "b" }
  else if q.page_num = 3 then List.replicate 500 { id := "c" }
  else []

/-- Misbehaving upstream that returns a full page of 2000 records for every page number,
never signalling end-of-results. -/
def fullSvc : CloudQuery → List CmrCollection := fun _ => List.replicate 2000 { id := "x" }

/-- An upstream on which every page of every query is empty. -/
def emptySvc : CloudQuery → List CmrCollection := fun _ => []

/-- A WFS/STAC link object (`wfs.createLink(rel, href, title)`). -/
structure WfsLink where
  rel : String
  href : String
  title : String := ""
deriving DecidableEq

/-- The links assembled by getCollections (wfs.js lines 58-78): self and root are always
present; a prev link is pushed when `currPage > 1 && links.length > 1` — at the moment of
that test the links array holds exactly the self and root links, so its length is 2; a
next link is pushed when the number of returned collections equals the requested page
size. -/
def getCollectionsLinks (currPage numCollections pageSize : Nat)
    (selfHref rootHref prevHref nextHref : String) : List WfsLink :=
  let links0 : List WfsLink :=
    [{ rel := "self", href := selfHref }, { rel := "root", href := rootHref }]
  let links1 :=
    if 1 < currPage ∧ 1 < links0.length then
      links0 ++ [{ rel := "prev", href := prevHref }]
    else links0
  let links2 :=
    if numCollections = pageSize then
      links1 ++ [{ rel := "next", href := nextHref }]
    else links1
  links2

/-- The translated native query produced by `cmr.convertParams`: the two members the
cloud-mode branch of getItems deletes and restores (`collection_concept_id`,
`concept_id`) are explicit; every other key/value pair is kept in `other`. -/
structure CmrParams where
  collection_concept_id : Option (List String) := none
  concept_id : Option (List String) := none
  other : List (String × String) := []
deriving DecidableEq

/-- STAC search parameters after `stacExtension.prepare` (minus `fields`): the
`collections` member is the one getItems inspects and mutates; the remaining parameters
are kept opaque. -/
structure StacParams where
  collections : Option (List String) := none
  rest : List (String × String) := []
deriving DecidableEq

/-- A native granule search as issued by getItems: either
`cmr.findGranules(cmrParams)` (plain mode) or `cmr.findGranules(postSearchParams)` with
URLSearchParams entries (cloud mode and getItem). -/
inductive GranuleSearch where
  | byParams (p : CmrParams)
  | byPost (p : List (String × String))
deriving DecidableEq

/-- Result of a native granule search ({granules, hits}); granule records are reduced to
opaque ids. -/
structure GranulesResult where
  granules : List String := []
  hits : Nat := 0
deriving DecidableEq

/-- Outcome of a getItems request: an HTTP error response, or the 200-path value built
from the granule search result. -/
inductive ItemsResult where
  | error (status : Nat) (msg : String)
  | success (result : GranulesResult)
deriving DecidableEq

/-- The external CMR collaborators consumed by getItems. -/
structure ItemsEnv where
  stacIdToCmrCollectionId : String → String → Option String
  convertParams : String → StacParams → CmrParams
  findCollections : CloudQuery → List CmrCollection
  findGranules : GranuleSearch → GranulesResult

/-- The `concept_id` entries appended one by one to the URLSearchParams
(wfs.js lines 231-235); absent concept ids contribute nothing. -/
def conceptIdEntries : Option (List String) → List (String × String)
  | none => []
  | some ids => ids.map (fun cid => ("concept_id", cid))

/-- The POST search parameters of the cloud branch (wfs.js lines 225-235): URLSearchParams
built from cmrParams after `collection_concept_id` and `concept_id` were deleted, then one
`collection_concept_id` entry per resolved cloud collection when that set is non-empty,
then one `concept_id` entry per preserved concept id when present. -/
def postSearchParamsOf (base : List (String × String)) (cloudIds : List String)
    (conceptIds : Option (List String)) : List (String × String) :=
  (if cloudIds.length ≠ 0 then
    base ++ cloudIds.map (fun cid => ("collection_concept_id", cid))
  else base) ++ conceptIdEntries conceptIds

/-- The search phase of getItems (wfs.js lines 203-240): convert the STAC params, compute
`collectionsRequested`/`validCollections`, then either issue exactly one native granule
search — in cloudstac mode a POST search assembled through the cloud-holding resolver
after deleting `collection_concept_id` and `concept_id` from the converted params, in
plain mode the converted params themselves — or skip the search and keep the initial
empty result.  Returns the handler outcome together with the granule searches issued. -/
def getItemsSearch (env : ItemsEnv) (cloudMode : Bool) (providerId : String)
    (params : StacParams) : ItemsResult × List GranuleSearch :=
  let cmrParams := env.convertParams providerId params
  let collectionsRequested := params.collections.isSome
  let validCollections := cmrParams.collection_concept_id.isSome
  if (collectionsRequested && validCollections) || !collectionsRequested then
    if cloudMode then
      let allCloudCollections :=
        (findCloudCollections env.findCollections providerId
          cmrParams.collection_concept_id).1
      let postSearchParams :=
        postSearchParamsOf cmrParams.other allCloudCollections cmrParams.concept_id
      (ItemsResult.success (env.findGranules (GranuleSearch.byPost postSearchParams)),
        [GranuleSearch.byPost postSearchParams])
    else
      (ItemsResult.success (env.findGranules (GranuleSearch.byParams cmrParams)),
        [GranuleSearch.byParams cmrParams])
  else
    (ItemsResult.success { granules := [], hits := 0 }, [])

/-- getItems (wfs.js lines 178-269): with a path-scoped collection id, the STAC id is
first resolved (404 when it resolves to nothing, wfs.js 186-190); an explicit
`collections` parameter combined with the path-scoped id is then rejected with a 404
(wfs.js 194-198); otherwise `params.collections = [collectionId]` is set and the search
phase runs.  `cloudMode` stands for `settings.cmrStacRelativeRootUrl === '/cloudstac'`. -/
def getItems (env : ItemsEnv) (cloudMode : Bool) (providerId : String)
    (collectionId : Option String) (params : StacParams) :
    ItemsResult × List GranuleSearch :=
  match collectionId with
  | none => getItemsSearch env cloudMode providerId params
  | some cid =>
    match env.stacIdToCmrCollectionId providerId cid with
    | none =>
      (ItemsResult.error 404 s!"Collection [{cid}] not found for provider [{providerId}]",
        [])
    | some _ =>
      if params.collections.isSome then
        (ItemsResult.error 404
          s!"Can not have collections param when there is collectionId [{cid}] specified.",
          [])
      else
        getItemsSearch env cloudMode providerId { params with collections := some [cid] }

/-- The external CMR collaborators consumed by getCollection. -/
structure CollEnv where
  stacCollectionToCmrParams : String → String → List (String × String)
  findCollections : List (String × String) → List CmrCollection

/-- Outcome of a getCollection request. -/
inductive CollectionResult where
  | notFound (status : Nat) (msg : String)
  | ok (coll : CmrCollection)
deriving DecidableEq

/-- getCollection (wfs.js lines 90-124): resolve the STAC collection id to native
short-name/version params, look the collection up, answer 404 when zero native records
come back, and otherwise build the document from the single returned record. -/
def getCollection (env : CollEnv) (providerId collectionId : String) : CollectionResult :=
  let cmrParams := env.stacCollectionToCmrParams providerId collectionId
  match env.findCollections cmrParams with
  | [] =>
    CollectionResult.notFound 404
      s!"Collection [{collectionId}] not found for provider [{providerId}]"
  | coll :: _ => CollectionResult.ok coll

/-- Modelled from the spec: the Catalog document class (`../stac/catalog` is not among the
sources) — a catalog node holds identity fields, a STAC version tag, and an ordered
sequence of typed links (spec section 3, CatalogNode). -/
structure Catalog where
  stac_version : String := ""
  id : String := ""
  title : String := ""
  description : String := ""
  links : List WfsLink := []

/-- Modelled from the spec: `createRoot` appends the single root link. -/
def Catalog.createRoot (c : Catalog) (url : String) : Catalog :=
  { c with links := c.links ++ [{ rel := "root", href := url }] }

/-- Modelled from the spec: `createSelf` appends the single self link. -/
def Catalog.createSelf (c : Catalog) (url : String) : Catalog :=
  { c with links := c.links ++ [{ rel := "self", href := url }] }

/-- Modelled from the spec: `createParent` appends the single parent link. -/
def Catalog.createParent (c : Catalog) (url : String) : Catalog :=
  { c with links := c.links ++ [{ rel := "parent", href := url }] }

/-- Modelled from the spec: `addChild(title, relativePath)` appends one child link. -/
def Catalog.addChild (c : Catalog) (title relPath : String) : Catalog :=
  { c with links := c.links ++ [{ rel := "child", href := relPath, title := title }] }

/-- Modelled from the spec: `addItem(title, provider, collection, id)` appends one item
link. -/
def Catalog.addItem (c : Catalog) (title providerId collectionId gid : String) : Catalog :=
  { c with links := c.links ++
      [{ rel := "item",
         href := s!"/{providerId}/collections/{collectionId}/items/{gid}",
         title := title }] }

/-- JavaScript truthiness of an optional string (`if (day) ... else if (month) ...`):
an absent value and the empty string are falsy. -/
def jsTruthyStr : Option String → Bool
  | none => false
  | some s => !(s == "")

/-- An optional string interpolated into a JavaScript template literal; the branches of
getCatalog only interpolate values that are present. -/
def optStr (o : Option String) : String := o.getD ""

/-- Index of the last '/' in a list of characters, if any. -/
def lastSlashIdx : List Char → Option Nat
  | [] => none
  | c :: cs =>
    match lastSlashIdx cs with
    | some k => some (k + 1)
    | none => if c = '/' then some 0 else none

/-- `selfUrl.slice(0, selfUrl.lastIndexOf('/'))` (wfs.js line 349): the self URL truncated
by its final path segment; when the URL holds no '/' at all, JavaScript's lastIndexOf
yields -1 and slice(0, -1) drops the final character. -/
def jsParentUrl (s : String) : String :=
  match lastSlashIdx s.data with
  | some k => String.mk (s.data.take k)
  | none => String.mk (s.data.take (s.data.length - 1))

/-- The browse-parameter mapping of getCatalog (wfs.js lines 307-312):
`Object.fromEntries(params.map((val, idx) => [browseTemplate[idx], val]))` followed by a
member lookup — i.e. the value of the path segment at the key's position in the browse
template, when such a segment exists. -/
def browseValue (template segments : List String) (key : String) : Option String :=
  match List.findIdx? (fun t => t == key) template with
  | none => none
  | some idx => segments.get? idx

/-- Temporal facets returned by `cmr.getGranuleTemporalFacets` (external). -/
structure TemporalFacets where
  years : List String := []
  months : List String := []
  days : List String := []
  itemids : List String := []

/-- The external CMR collaborators consumed by getCatalog. -/
structure CatalogEnv where
  stacIdToCmrCollectionId : String → String → Option String
  stacCollectionToCmrParams : String → String → List (String × String)
  getGranuleTemporalFacets : List (String × String) → Option String → Option String →
    Option String → TemporalFacets

/-- Outcome of a getCatalog request. -/
inductive CatalogResult where
  | notFound (status : Nat) (msg : String)
  | ok (cat : Catalog)

/-- The links of a getCatalog outcome (empty for the 404 branch). -/
def CatalogResult.links : CatalogResult → List WfsLink
  | .notFound _ _ => []
  | .ok cat => cat.links

/-- Modelled from the spec: the browse path template (the process-environment variable
`BROWSE_PATH`, not part of the sources) interprets the date path segments positionally as
year/month/day (spec section 4.5). -/
def browseTemplateYMD : List String := ["year", "month", "day"]

/-- getCatalog (wfs.js lines 305-363): map the date path segments positionally over the
browse template, resolve the collection (404 when it resolves to nothing), build the
catalog node with root, self, and parent (self truncated by one segment) links, fetch the
temporal facets, and append one item link per granule id when a day is given, else one
child link per day when a month is given, else one child link per month when a year is
given. -/
def getCatalog (env : CatalogEnv) (template segments : List String)
    (providerId collectionId : String) (rootUrl selfUrl : String) : CatalogResult :=
  let year := browseValue template segments "year"
  let month := browseValue template segments "month"
  let day := browseValue template segments "day"
  match env.stacIdToCmrCollectionId providerId collectionId with
  | none =>
    CatalogResult.notFound 404
      s!"Collection [{collectionId}] not found for provider [{providerId}]"
  | some _ =>
    let date := String.intercalate "-" segments
    let cat : Catalog :=
      { stac_version := "1.0.0"
        id := s!"{collectionId}-{date}"
        title := s!"{collectionId} {date}"
        description := s!"{providerId} sub-catalog for {date}" }
    let cat := cat.createRoot rootUrl
    let cat := cat.createSelf selfUrl
    let cat := cat.createParent (jsParentUrl selfUrl)
    let cmrParams := env.stacCollectionToCmrParams providerId collectionId
    let facets := env.getGranuleTemporalFacets cmrParams year month day
    let cat :=
      if jsTruthyStr day then
        facets.itemids.foldl (fun c gid => c.addItem gid providerId collectionId gid) cat
      else if jsTruthyStr month then
        facets.days.foldl
          (fun c d => c.addChild s!"{optStr year}-{optStr month}-{d} catalog" s!"/{d}") cat
      else if jsTruthyStr year then
        facets.months.foldl
          (fun c m => c.addChild s!"{optStr year}-{m} catalog" s!"/{m}") cat
      else cat
    CatalogResult.ok cat

/-- Fixture: items environment whose resolver knows the collection and whose searches
return nothing. -/
def wItemsEnv : ItemsEnv :=
  { stacIdToCmrCollectionId := fun _ _ => some "C1200000001-PROV"
    convertParams := fun _ _ => {}
    findCollections := emptySvc
    findGranules := fun _ => {} }

/-- Fixture: items environment whose resolver knows no collection. -/
def wItemsEnvNF : ItemsEnv :=
  { stacIdToCmrCollectionId := fun _ _ => none
    convertParams := fun _ _ => {}
    findCollections := emptySvc
    findGranules := fun _ => {} }

/-- Fixture: STAC params carrying an explicit collections parameter. -/
def wConflictParams : StacParams := { collections := some ["c2"] }

/-- Fixture: collection environment whose lookup returns zero native records. -/
def wCollEnv : CollEnv :=
  { stacCollectionToCmrParams := fun _ _ => []
    findCollections := fun _ => [] }

/-- Fixture: items environment for the cloud-mode searches — the translation produces one
temporal key plus a requested collection_concept_id, and no collection carries the cloud
tag (every cloud-resolver page is empty). -/
def wCloudEnv : ItemsEnv :=
  { stacIdToCmrCollectionId := fun _ _ => some "C1200000001-PROV"
    convertParams := fun _ _ =>
      { collection_concept_id := some ["C1200000001-PROV"]
        concept_id := none
        other := [("temporal", "2020-01-01T00:00:00Z")] }
    findCollections := emptySvc
    findGranules := fun _ => {} }

/-- Fixture: STAC params requesting one specific collection. -/
def wC10Params : StacParams := { collections := some ["c1"] }

/-- Fixture: catalog environment whose resolver knows the collection and whose facets hold
two months, three days and one granule id. -/
def wCatalogEnv : CatalogEnv :=
  { stacIdToCmrCollectionId := fun _ _ => some "C1200000001-PROV"
    stacCollectionToCmrParams := fun _ _ => []
    getGranuleTemporalFacets := fun _ _ _ _ =>
      { years := ["1998"]
        months := ["01", "02"]
        days := ["10", "11", "12"]
        itemids := ["G1200000001-PROV"] } }

/-- The catalog of a getCatalog outcome, defaulting to the empty catalog for the 404
branch. -/
def CatalogResult.catOrDefault : CatalogResult → Catalog
  | .notFound _ _ => {}
  | .ok cat => cat

theorem setPage_page_num (q : CloudQuery) (i : Nat) : (setPage q i).page_num = i := rfl

theorem fullSvc_length (q : CloudQuery) : (fullSvc q).length = 2000 := by
  simp only [fullSvc]
  rw [List.length_replicate]

theorem cloudLoop_break (svc : CloudQuery → List CmrCollection) (base : CloudQuery)
    (fuel i : Nat) (acc : List String)
    (h : (svc (setPage base i)).length < 2000) :
    cloudLoop svc base (fuel + 1) i acc =
      (acc ++ (svc (setPage base i)).map CmrCollection.id, 1) := by
  simp [cloudLoop, h]

theorem cloudLoop_cont (svc : CloudQuery → List CmrCollection) (base : CloudQuery)
    (fuel i : Nat) (acc : List String)
    (h : ¬ (svc (setPage base i)).length < 2000) :
    cloudLoop svc base (fuel + 1) i acc =
      ((cloudLoop svc base fuel (i + 1)
          (acc ++ (svc (setPage base i)).map CmrCollection.id)).1,
        (cloudLoop svc base fuel (i + 1)
          (acc ++ (svc (setPage base i)).map CmrCollection.id)).2 + 1) := by
  simp [cloudLoop, h]

/-- Full characterisation of the paging loop: the fetch count is bounded by the fuel and
positive when any fuel is available; the accumulated ids are the concatenation, in
upstream order, of the fetched pages; every fetched page except possibly the last held at
least 2000 records; and if the loop stopped before exhausting its fuel, the last fetched
page was short. -/
theorem cloudLoop_spec (svc : CloudQuery → List CmrCollection) (base : CloudQuery) :
    ∀ (fuel i : Nat) (acc : List String),
      (cloudLoop svc base fuel i acc).2 ≤ fuel ∧
      (0 < fuel → 0 < (cloudLoop svc base fuel i acc).2) ∧
      (cloudLoop svc base fuel i acc).1 =
        acc ++ pagesJoin svc base i (cloudLoop svc base fuel i acc).2 ∧
      (∀ j : Nat, j + 1 < (cloudLoop svc base fuel i acc).2 →
        2000 ≤ (svc (setPage base (i + j))).length) ∧
      ((cloudLoop svc base fuel i acc).2 < fuel →
        (svc (setPage base (i + (cloudLoop svc base fuel i acc).2 - 1))).length < 2000) := by
  intro fuel
  induction fuel with
  | zero =>
    intro i acc
    simp [cloudLoop, pagesJoin]
  | succ fuel ih =>
    intro i acc
    by_cases h : (svc (setPage base i)).length < 2000
    · rw [cloudLoop_break svc base fuel i acc h]
      refine ⟨by omega, by omega, ?_, ?_, ?_⟩
      · simp [pagesJoin]
      · intro j hj
        omega
      · intro _
        simpa using h
    · rw [cloudLoop_cont svc base fuel i acc h]
      obtain ⟨h1, h2, h3, h4, h5⟩ :=
        ih (i + 1) (acc ++ (svc (setPage base i)).map CmrCollection.id)
      refine ⟨by simpa using Nat.add_le_add_right h1 1, by omega, ?_, ?_, ?_⟩
      · simp only [h3, pagesJoin, List.append_assoc]
      · intro j hj
        cases j with
        | zero =>
          simpa using Nat.not_lt.mp h
        | succ k =>
          have hk := h4 k (by omega)
          have e : i + 1 + k = i + (k + 1) := by omega
          rw [e] at hk
          exact hk
      · intro hlt
        have hfuel : 0 < fuel := by omega
        have hn := h2 hfuel
        have hshort := h5 (by omega)
        have e : i + 1 +
            (cloudLoop svc base fuel (i + 1)
              (acc ++ (svc (setPage base i)).map CmrCollection.id)).2 - 1 =
            i + ((cloudLoop svc base fuel (i + 1)
              (acc ++ (svc (setPage base i)).map CmrCollection.id)).2 + 1) - 1 := by
          omega
        rw [e] at hshort
        exact hshort

/-- If every one of the pages 1..9999 holds at least a full 2000 records, the loop spends
all of its fuel: it performs all 9999 fetches and returns the ids of those 9999 pages. -/
theorem findCloud_cap (svc : CloudQuery → List CmrCollection) (providerId : String)
    (ids : Option (List String))
    (h : ∀ i : Nat, 1 ≤ i → i ≤ 9999 →
      2000 ≤ (svc (pageQuery providerId ids i)).length) :
    (findCloudCollections svc providerId ids).2 = 9999 ∧
    (findCloudCollections svc providerId ids).1 =
      pagesJoin svc (cloudBaseQuery providerId ids) 1 9999 := by
  obtain ⟨h1, h2, h3, h4, h5⟩ := cloudLoop_spec svc (cloudBaseQuery providerId ids) 9999 1 []
  have hpos : 0 < (cloudLoop svc (cloudBaseQuery providerId ids) 9999 1 []).2 := h2 (by omega)
  have hn : (cloudLoop svc (cloudBaseQuery providerId ids) 9999 1 []).2 = 9999 := by
    by_contra hne
    have hlt : (cloudLoop svc (cloudBaseQuery providerId ids) 9999 1 []).2 < 9999 := by omega
    have hshort := h5 hlt
    have hfull := h (1 + (cloudLoop svc (cloudBaseQuery providerId ids) 9999 1 []).2 - 1)
      (by omega) (by omega)
    rw [pageQuery] at hfull
    omega
  refine ⟨hn, ?_⟩
  rw [hn] at h3
  rw [List.nil_append] at h3
  exact h3

/-- If every page returned by the upstream has exactly `k` records, the join of `n` pages
has `n * k` ids. -/
theorem pagesJoin_length_const (svc : CloudQuery → List CmrCollection) (base : CloudQuery)
    (k : Nat) (h : ∀ q : CloudQuery, (svc q).length = k) :
    ∀ (n i : Nat), (pagesJoin svc base i n).length = n * k := by
  intro n
  induction n with
  | zero =>
    intro i
    simp [pagesJoin]
  | succ m ih =>
    intro i
    have hm := ih (i + 1)
    simp only [pagesJoin, List.length_append, List.length_map, h, hm, Nat.succ_mul]
    omega

/-- Evaluation of the paging loop against the 2000/2000/500 stub upstream, carried out by
rewriting with the loop equations so that the 2000-element pages are never materialised. -/
theorem stubSvc3_eval :
    (findCloudCollections stubSvc3 "PROV" none).1.length = 4500 ∧
    (findCloudCollections stubSvc3 "PROV" none).2 = 3 := by
  have p1 : stubSvc3 (setPage (cloudBaseQuery "PROV" none) 1) =
      List.replicate 2000 { id := "a" } := rfl
  have p2 : stubSvc3 (setPage (cloudBaseQuery "PROV" none) 2) =
      List.replicate 2000 { id := "b" } := rfl
  have p3 : stubSvc3 (setPage (cloudBaseQuery "PROV" none) 3) =
      List.replicate 500 { id := "c" } := rfl
  have l1 : ¬ (stubSvc3 (setPage (cloudBaseQuery "PROV" none) 1)).length < 2000 := by
    rw [p1, List.length_replicate]
    omega
  have l2 : ¬ (stubSvc3 (setPage (cloudBaseQuery "PROV" none) 2)).length < 2000 := by
    rw [p2, List.length_replicate]
    omega
  have l3 : (stubSvc3 (setPage (cloudBaseQuery "PROV" none) 3)).length < 2000 := by
    rw [p3, List.length_replicate]
    omega
  have e : findCloudCollections stubSvc3 "PROV" none =
      cloudLoop stubSvc3 (cloudBaseQuery "PROV" none) 9999 1 [] := rfl
  rw [e, show (9999 : Nat) = 9998 + 1 from rfl,
    cloudLoop_cont stubSvc3 (cloudBaseQuery "PROV" none) 9998 1 [] l1,
    show (9998 : Nat) = 9997 + 1 from rfl,
    cloudLoop_cont stubSvc3 (cloudBaseQuery "PROV" none) 9997 2 _ l2,
    show (9997 : Nat) = 9996 + 1 from rfl,
    cloudLoop_break stubSvc3 (cloudBaseQuery "PROV" none) 9996 3 _ l3]
  constructor
  · simp only [p1, p2, p3, List.length_append, List.length_map, List.length_replicate,
      List.length_nil]
  · rfl

/-- C1: the cloud-holding resolver (findCloudCollections) requests pages sequentially
starting at page 1 with page size 2000, accumulates the ids of every returned record in
upstream order, and terminates as soon as a page returns strictly fewer than 2000 records
or after at most 9999 pages; against a service returning exactly 2000, 2000, 500 records
on successive pages it returns 4500 ids after exactly 3 page fetches. -/
theorem C1_cloud_resolver_paging :
    (∀ (svc : CloudQuery → List CmrCollection) (providerId : String)
        (ids : Option (List String)),
      (pageQuery providerId ids 1).page_size = 2000 ∧
      1 ≤ (findCloudCollections svc providerId ids).2 ∧
      (findCloudCollections svc providerId ids).2 ≤ 9999 ∧
      (findCloudCollections svc providerId ids).1 =
        pagesJoin svc (cloudBaseQuery providerId ids) 1
          (findCloudCollections svc providerId ids).2 ∧
      (∀ j : Nat, j + 1 < (findCloudCollections svc providerId ids).2 →
        2000 ≤ (svc (pageQuery providerId ids (1 + j))).length) ∧
      ((findCloudCollections svc providerId ids).2 < 9999 →
        (svc (pageQuery providerId ids
          (1 + (findCloudCollections svc providerId ids).2 - 1))).length < 2000)) ∧
    (findCloudCollections stubSvc3 "PROV" none).1.length = 4500 ∧
    (findCloudCollections stubSvc3 "PROV" none).2 = 3 := by
  refine ⟨?_, stubSvc3_eval⟩
  intro svc providerId ids
  obtain ⟨h1, h2, h3, h4, h5⟩ := cloudLoop_spec svc (cloudBaseQuery providerId ids) 9999 1 []
  rw [List.nil_append] at h3
  exact ⟨rfl, h2 (by omega), h1, h3, h4, h5⟩

/-- C1 witness: on the 2000/2000/500 stub the loop stops before the cap, and indeed the
last fetched page (page 3) is short. -/
theorem C1_cloud_resolver_paging_witness :
    (stubSvc3 (pageQuery "PROV" none
      (1 + (findCloudCollections stubSvc3 "PROV" none).2 - 1))).length < 2000 :=
  (C1_cloud_resolver_paging.1 stubSvc3 "PROV" none).2.2.2.2.2
    (by rw [C1_cloud_resolver_paging.2.2]; omega)

/-- C4 (amended): if the paging loop reaches its hard cap of 9999 pages (every page
returning a full 2000 records), findCloudCollections returns the ids accumulated from
those 9999 pages as an ordinary result — the cap is not surfaced to the caller as an
error; wfs.js defines no ResolverExhaustionError, the loop simply ends and the truncated
accumulation is returned silently. -/
theorem C4_cap_returns_truncated_result (svc : CloudQuery → List CmrCollection)
    (providerId : String) (ids : Option (List String))
    (h : ∀ i : Nat, 1 ≤ i → i ≤ 9999 →
      2000 ≤ (svc (pageQuery providerId ids i)).length) :
    (findCloudCollections svc providerId ids).2 = 9999 ∧
    (findCloudCollections svc providerId ids).1 =
      pagesJoin svc (cloudBaseQuery providerId ids) 1 9999 :=
  findCloud_cap svc providerId ids h

/-- C4 witness: the amended claim instantiated at the always-full upstream. -/
theorem C4_cap_returns_truncated_result_witness :
    (findCloudCollections fullSvc "PROV2" none).2 = 9999 ∧
    (findCloudCollections fullSvc "PROV2" none).1 =
      pagesJoin fullSvc (cloudBaseQuery "PROV2" none) 1 9999 :=
  C4_cap_returns_truncated_result fullSvc "PROV2" none
    (fun i _ _ => le_of_eq (fullSvc_length (pageQuery "PROV2" none i)).symm)

/-- C4 counterexample: against an upstream that returns a full page of 2000 records for
every page number, the resolver performs all 9999 page fetches and then returns the
9999 * 2000 = 19998000 accumulated ids as an ordinary, silently truncated result; no
error is raised (the embedded findCloudCollections is a total function into
List String × Nat with no error outcome), refuting the claim that reaching the cap is
surfaced to the caller as a ResolverExhaustionError instead of a truncated result. -/
theorem C4_counterexample :
    (findCloudCollections fullSvc "PROV" none).2 = 9999 ∧
    (findCloudCollections fullSvc "PROV" none).1.length = 19998000 := by
  have hfull : ∀ i : Nat, 1 ≤ i → i ≤ 9999 →
      2000 ≤ (fullSvc (pageQuery "PROV" none i)).length :=
    fun i _ _ => le_of_eq (fullSvc_length (pageQuery "PROV" none i)).symm
  obtain ⟨hc, hl⟩ := findCloud_cap fullSvc "PROV" none hfull
  refine ⟨hc, ?_⟩
  rw [hl, pagesJoin_length_const fullSvc (cloudBaseQuery "PROV" none) 2000 fullSvc_length
    9999 1]

/-- C3: in the collections listing a next link is included iff the number of returned
collections exactly equals the requested page size (strict equality; fewer results than
requested yields no next link); with page=1, resultCount=10, pageSize=10 the links are
exactly self, root, next and no prev. -/
theorem C3_next_iff_full_page :
    (∀ (currPage numCollections pageSize : Nat) (s r p n : String),
      "next" ∈ (getCollectionsLinks currPage numCollections pageSize s r p n).map
        WfsLink.rel ↔ numCollections = pageSize) ∧
    (getCollectionsLinks 1 10 10 "s" "r" "p" "n").map WfsLink.rel =
      ["self", "root", "next"] := by
  refine ⟨?_, rfl⟩
  intro currPage numCollections pageSize s r p n
  simp only [getCollectionsLinks]
  split_ifs with h1 h2 h2 <;> simp_all

/-- C2 counterexample: at page 2 with zero returned collections (pageSize 10), no link
besides the always-present self and root exists, yet the code still emits a prev link —
prev is pushed merely because page > 1, refuting the claimed rule that prev additionally
requires an already-existing link beyond self and root. -/
theorem C2_counterexample :
    (getCollectionsLinks 2 0 10 "s" "r" "p" "n").map WfsLink.rel =
      ["self", "root", "prev"] := rfl

/-- C2 (amended): a prev link is included iff the current page number is greater than 1;
the additional `links.length > 1` guard of wfs.js line 66 is vacuous, because the links
array always already holds the self and root links (length 2) when the guard runs.  The
claim's example stands: page=2, resultCount=3, pageSize=10 with preceding content yields
exactly self, root, prev and no next. -/
theorem C2_prev_iff_page_gt_one :
    (∀ (currPage numCollections pageSize : Nat) (s r p n : String),
      "prev" ∈ (getCollectionsLinks currPage numCollections pageSize s r p n).map
        WfsLink.rel ↔ 1 < currPage) ∧
    (getCollectionsLinks 2 3 10 "s" "r" "p" "n").map WfsLink.rel =
      ["self", "root", "prev"] := by
  refine ⟨?_, rfl⟩
  intro currPage numCollections pageSize s r p n
  simp only [getCollectionsLinks]
  split_ifs with h1 h2 h2 <;> simp_all

/-- C5: every getItems request that supplies both a path-scoped collection id and an
explicit collections parameter returns a 404-class error — the conflict message when the
path id resolves, the not-found message otherwise — and issues no native granule query;
neither of the two collection scopes is ever silently dropped. -/
theorem C5_path_and_collections_conflict (env : ItemsEnv) (cloudMode : Bool)
    (providerId cid : String) (params : StacParams)
    (h : params.collections.isSome = true) :
    (∃ msg, (getItems env cloudMode providerId (some cid) params).1 =
      ItemsResult.error 404 msg) ∧
    (getItems env cloudMode providerId (some cid) params).2 = [] := by
  rcases henv : env.stacIdToCmrCollectionId providerId cid with _ | c <;>
    simp [getItems, henv, h]

/-- C5 witness: the conflict at a concrete request. -/
theorem C5_path_and_collections_conflict_witness :
    (∃ msg, (getItems wItemsEnv true "PROV" (some "c1") wConflictParams).1 =
      ItemsResult.error 404 msg) ∧
    (getItems wItemsEnv true "PROV" (some "c1") wConflictParams).2 = [] :=
  C5_path_and_collections_conflict wItemsEnv true "PROV" "c1" wConflictParams rfl

/-- C6: a provider/collection-id pair whose lookup yields zero native collection records
(getCollection), or whose STAC id resolves to no native concept id (getItems), produces a
404 not-found outcome whose message names the collection and the provider — never an
empty-but-successful document; getItems additionally issues no granule search. -/
theorem C6_zero_records_not_found :
    (∀ (env : CollEnv) (pid cid : String),
      env.findCollections (env.stacCollectionToCmrParams pid cid) = [] →
      getCollection env pid cid =
        CollectionResult.notFound 404
          s!"Collection [{cid}] not found for provider [{pid}]") ∧
    (∀ (env : ItemsEnv) (cloudMode : Bool) (pid cid : String) (params : StacParams),
      env.stacIdToCmrCollectionId pid cid = none →
      (getItems env cloudMode pid (some cid) params).1 =
        ItemsResult.error 404 s!"Collection [{cid}] not found for provider [{pid}]" ∧
      (getItems env cloudMode pid (some cid) params).2 = []) := by
  constructor
  · intro env pid cid h
    simp [getCollection, h]
  · intro env cloudMode pid cid params h
    simp [getItems, h]

/-- C6 witness: both parts at concrete inputs. -/
theorem C6_zero_records_not_found_witness :
    (getCollection wCollEnv "PROV" "c1" =
      CollectionResult.notFound 404 "Collection [c1] not found for provider [PROV]") ∧
    ((getItems wItemsEnvNF false "PROV" (some "c1") {}).1 =
      ItemsResult.error 404 "Collection [c1] not found for provider [PROV]" ∧
      (getItems wItemsEnvNF false "PROV" (some "c1") {}).2 = []) :=
  ⟨C6_zero_records_not_found.1 wCollEnv "PROV" "c1" rfl,
    C6_zero_records_not_found.2 wItemsEnvNF false "PROV" "c1" {} rfl⟩

/-- Against an upstream with no cloud-tagged collection at all, the resolver stops after
one (empty) page and returns no ids. -/
theorem emptySvc_cloud (providerId : String) (ids : Option (List String)) :
    findCloudCollections emptySvc providerId ids = ([], 1) := by
  have e : findCloudCollections emptySvc providerId ids =
      cloudLoop emptySvc (cloudBaseQuery providerId ids) 9999 1 [] := rfl
  rw [e, show (9999 : Nat) = 9998 + 1 from rfl,
    cloudLoop_break emptySvc (cloudBaseQuery providerId ids) 9998 1 []
      (by simp [emptySvc])]
  simp [emptySvc]

/-- The POST search parameters carry no collection_concept_id entry when the cloud set is
empty: the base entries are collection-free by hypothesis, and the appended concept_id
entries all use the key "concept_id". -/
theorem post_no_collection_filter (p : CmrParams)
    (hother : ∀ kv ∈ p.other, kv.1 ≠ "collection_concept_id") :
    ∀ kv ∈ p.other ++ conceptIdEntries p.concept_id, kv.1 ≠ "collection_concept_id" := by
  intro kv hkv
  rcases List.mem_append.mp hkv with hmem | hmem
  · exact hother kv hmem
  · rcases hcid : p.concept_id with _ | ids
    · rw [hcid] at hmem
      simp [conceptIdEntries] at hmem
    · rw [hcid] at hmem
      rw [conceptIdEntries] at hmem
      obtain ⟨cid, _, rfl⟩ := List.mem_map.mp hmem
      show ("concept_id" : String) ≠ "collection_concept_id"
      decide

/-- C7: in cloud mode, when the caller requested no specific collections and the resolved
cloud-holding set is empty, getItems still issues the native granule search — exactly one
POST search built from the translated query, carrying no collection_concept_id entry at
all (an empty resolved set adds no restriction) — rather than skipping the search and
returning zero results.  The `hother` hypothesis records that the translated query keeps
collection ids only in its collection_concept_id member, as cmr.convertParams does. -/
theorem C7_empty_cloud_set_still_searches (env : ItemsEnv) (pid : String)
    (params : StacParams)
    (hc : params.collections = none)
    (hcloud : (findCloudCollections env.findCollections pid
      (env.convertParams pid params).collection_concept_id).1 = [])
    (hother : ∀ kv ∈ (env.convertParams pid params).other,
      kv.1 ≠ "collection_concept_id") :
    (getItems env true pid none params).2 =
      [GranuleSearch.byPost ((env.convertParams pid params).other ++
        conceptIdEntries (env.convertParams pid params).concept_id)] ∧
    ∀ kv ∈ (env.convertParams pid params).other ++
        conceptIdEntries (env.convertParams pid params).concept_id,
      kv.1 ≠ "collection_concept_id" := by
  refine ⟨?_, post_no_collection_filter (env.convertParams pid params) hother⟩
  show (getItemsSearch env true pid params).2 = _
  simp only [getItemsSearch, hc, hcloud, postSearchParamsOf]
  simp

/-- C7 witness: a concrete cloud-mode request with no collections parameter against an
upstream without cloud-tagged collections. -/
theorem C7_empty_cloud_set_still_searches_witness :
    (getItems wCloudEnv true "PROV" none {}).2 =
      [GranuleSearch.byPost ((wCloudEnv.convertParams "PROV" {}).other ++
        conceptIdEntries (wCloudEnv.convertParams "PROV" {}).concept_id)] ∧
    ∀ kv ∈ (wCloudEnv.convertParams "PROV" {}).other ++
        conceptIdEntries (wCloudEnv.convertParams "PROV" {}).concept_id,
      kv.1 ≠ "collection_concept_id" :=
  C7_empty_cloud_set_still_searches wCloudEnv "PROV" {} rfl
    (by rw [show wCloudEnv.findCollections = emptySvc from rfl, emptySvc_cloud])
    (by decide)

/-- C10: in cloud mode, when the translated query carries collection_concept_id values
(the caller requested collections and some survived translation) but none of them is
cloud-holding (the resolver returns the empty set), the search phase of getItems still
issues the granule search with no collection_concept_id entry at all: the requested ids
were deleted from the converted params before the search and, the resolved cloud set
being empty, never restored — so the search is not restricted to the collections the
caller requested.  The `hother` hypothesis records that the translated query keeps
collection ids only in its collection_concept_id member, as cmr.convertParams does. -/
theorem C10_requested_ids_dropped_when_not_cloud (env : ItemsEnv) (pid : String)
    (params : StacParams)
    (hreq : params.collections.isSome = true)
    (hv : (env.convertParams pid params).collection_concept_id.isSome = true)
    (hcloud : (findCloudCollections env.findCollections pid
      (env.convertParams pid params).collection_concept_id).1 = [])
    (hother : ∀ kv ∈ (env.convertParams pid params).other,
      kv.1 ≠ "collection_concept_id") :
    (getItemsSearch env true pid params).2 =
      [GranuleSearch.byPost ((env.convertParams pid params).other ++
        conceptIdEntries (env.convertParams pid params).concept_id)] ∧
    ∀ kv ∈ (env.convertParams pid params).other ++
        conceptIdEntries (env.convertParams pid params).concept_id,
      kv.1 ≠ "collection_concept_id" := by
  refine ⟨?_, post_no_collection_filter (env.convertParams pid params) hother⟩
  simp only [getItemsSearch, hreq, hv, hcloud, postSearchParamsOf]
  simp

/-- C10 witness: a concrete cloud-mode request for one collection whose translated
concept id is not cloud-holding. -/
theorem C10_requested_ids_dropped_when_not_cloud_witness :
    (getItemsSearch wCloudEnv true "PROV" wC10Params).2 =
      [GranuleSearch.byPost ((wCloudEnv.convertParams "PROV" wC10Params).other ++
        conceptIdEntries (wCloudEnv.convertParams "PROV" wC10Params).concept_id)] ∧
    ∀ kv ∈ (wCloudEnv.convertParams "PROV" wC10Params).other ++
        conceptIdEntries (wCloudEnv.convertParams "PROV" wC10Params).concept_id,
      kv.1 ≠ "collection_concept_id" :=
  C10_requested_ids_dropped_when_not_cloud wCloudEnv "PROV" wC10Params rfl rfl
    (by rw [show wCloudEnv.findCollections = emptySvc from rfl, emptySvc_cloud])
    (by decide)

/-- Folding a link-appending step over a list appends one link per element, in order. -/
theorem foldl_append_links (step : Catalog → String → Catalog) (mk : String → WfsLink)
    (hstep : ∀ c x, (step c x).links = c.links ++ [mk x]) (l : List String) :
    ∀ cat : Catalog, (l.foldl step cat).links = cat.links ++ l.map mk := by
  induction l with
  | nil =>
    intro cat
    simp
  | cons x xs ih =>
    intro cat
    simp only [List.foldl_cons, List.map_cons, ih, hstep]
    simp

theorem filter_rel_all_ne (rest : List WfsLink) (r0 r : String)
    (h : ∀ l ∈ rest, l.rel = r0) (hne : (r0 == r) = false) :
    rest.filter (fun l => l.rel == r) = [] := by
  induction rest with
  | nil => rfl
  | cons a as ih =>
    have ha : (a.rel == r) = false := by
      rw [h a (by simp)]
      exact hne
    simp only [List.filter_cons, ha, if_neg]
    exact ih (fun l hl => h l (by simp [hl]))

theorem filter_rel_all_eq (rest : List WfsLink) (r : String)
    (h : ∀ l ∈ rest, l.rel = r) : rest.filter (fun l => l.rel == r) = rest := by
  induction rest with
  | nil => rfl
  | cons a as ih =>
    have ha : (a.rel == r) = true := by
      rw [h a (by simp)]
      simp
    simp only [List.filter_cons, ha, if_pos]
    rw [ih (fun l hl => h l (by simp [hl]))]

/-- Creating root, self and parent on a link-less catalog yields exactly those three
links, in that order. -/
theorem base_links (cat0 : Catalog) (h0 : cat0.links = []) (ru su pu : String) :
    (((cat0.createRoot ru).createSelf su).createParent pu).links =
      [{ rel := "root", href := ru }, { rel := "self", href := su },
        { rel := "parent", href := pu }] := by
  simp [Catalog.createRoot, Catalog.createSelf, Catalog.createParent, h0]

theorem base3_filter_ne (ru su pu r : String) (h1 : ("root" == r) = false)
    (h2 : ("self" == r) = false) (h3 : ("parent" == r) = false) :
    ([{ rel := "root", href := ru }, { rel := "self", href := su },
      { rel := "parent", href := pu }] : List WfsLink).filter
        (fun l => l.rel == r) = [] := by
  simp [List.filter_cons, h1, h2, h3]

theorem mem_map_child (title href : String → String) (l : List String) :
    ∀ lk ∈ l.map (fun x =>
      ({ rel := "child", href := href x, title := title x } : WfsLink)),
      lk.rel = "child" := by
  intro lk hlk
  obtain ⟨x, _, rfl⟩ := List.mem_map.mp hlk
  rfl

theorem mem_map_item (title href : String → String) (l : List String) :
    ∀ lk ∈ l.map (fun x =>
      ({ rel := "item", href := href x, title := title x } : WfsLink)),
      lk.rel = "item" := by
  intro lk hlk
  obtain ⟨x, _, rfl⟩ := List.mem_map.mp hlk
  rfl

/-- Every successful getCatalog response consists of the root, self and parent links, in
that order, followed by a run of links that are either all child links or all item
links. -/
theorem getCatalog_links_shape (env : CatalogEnv) (template segments : List String)
    (p c ru su cid : String)
    (h : env.stacIdToCmrCollectionId p c = some cid) :
    ∃ rest : List WfsLink,
      (getCatalog env template segments p c ru su).links =
        [{ rel := "root", href := ru }, { rel := "self", href := su },
          { rel := "parent", href := jsParentUrl su }] ++ rest ∧
      ((∀ l ∈ rest, l.rel = "child") ∨ (∀ l ∈ rest, l.rel = "item")) := by
  simp only [getCatalog, h, CatalogResult.links]
  split_ifs with hd hm hy
  · rw [foldl_append_links _ _ (fun cc x => rfl)]
    simp only [Catalog.createRoot, Catalog.createSelf, Catalog.createParent,
      List.nil_append, List.append_assoc, List.cons_append]
    refine ⟨_, rfl, Or.inr ?_⟩
    intro l hl
    obtain ⟨gid, _, rfl⟩ := List.mem_map.mp hl
    rfl
  · rw [foldl_append_links _ _ (fun cc x => rfl)]
    simp only [Catalog.createRoot, Catalog.createSelf, Catalog.createParent,
      List.nil_append, List.append_assoc, List.cons_append]
    refine ⟨_, rfl, Or.inl ?_⟩
    intro l hl
    obtain ⟨dd, _, rfl⟩ := List.mem_map.mp hl
    rfl
  · rw [foldl_append_links _ _ (fun cc x => rfl)]
    simp only [Catalog.createRoot, Catalog.createSelf, Catalog.createParent,
      List.nil_append, List.append_assoc, List.cons_append]
    refine ⟨_, rfl, Or.inl ?_⟩
    intro l hl
    obtain ⟨mm, _, rfl⟩ := List.mem_map.mp hl
    rfl
  · refine ⟨[], ?_, Or.inl (by simp)⟩
    simp [Catalog.createRoot, Catalog.createSelf, Catalog.createParent]

/-- C9: every catalog node produced by getCatalog carries exactly one self link, exactly
one root link, and a parent link whose URL is the self URL truncated by one path segment
(`selfUrl.slice(0, selfUrl.lastIndexOf('/'))`); child links and item links never both
appear on the same node. -/
theorem C9_catalog_link_invariants (env : CatalogEnv) (template segments : List String)
    (p c ru su cid : String)
    (h : env.stacIdToCmrCollectionId p c = some cid) :
    ((getCatalog env template segments p c ru su).links.filter
      (fun l => l.rel == "self")).length = 1 ∧
    ((getCatalog env template segments p c ru su).links.filter
      (fun l => l.rel == "root")).length = 1 ∧
    (getCatalog env template segments p c ru su).links.filter
      (fun l => l.rel == "parent") = [{ rel := "parent", href := jsParentUrl su }] ∧
    ((getCatalog env template segments p c ru su).links.filter
      (fun l => l.rel == "child") = [] ∨
      (getCatalog env template segments p c ru su).links.filter
      (fun l => l.rel == "item") = []) := by
  obtain ⟨rest, hlinks, hrest⟩ :=
    getCatalog_links_shape env template segments p c ru su cid h
  have hno : ∀ r : String, ("child" == r) = false → ("item" == r) = false →
      rest.filter (fun l => l.rel == r) = [] := by
    intro r hc hi
    rcases hrest with hr | hr
    · exact filter_rel_all_ne rest "child" r hr hc
    · exact filter_rel_all_ne rest "item" r hr hi
  rw [hlinks]
  refine ⟨?_, ?_, ?_, ?_⟩
  · rw [List.filter_append, hno "self" (by decide) (by decide)]
    rfl
  · rw [List.filter_append, hno "root" (by decide) (by decide)]
    rfl
  · rw [List.filter_append, hno "parent" (by decide) (by decide)]
    rfl
  · rcases hrest with hr | hr
    · right
      rw [List.filter_append, filter_rel_all_ne rest "child" "item" hr (by decide)]
      rfl
    · left
      rw [List.filter_append, filter_rel_all_ne rest "item" "child" hr (by decide)]
      rfl

/-- C9 witness: the invariants at a concrete year-level browse request. -/
theorem C9_catalog_link_invariants_witness :
    ((getCatalog wCatalogEnv browseTemplateYMD ["1998"] "PROV" "c1" "http://e"
      "http://e/PROV/collections/c1/1998").links.filter
      (fun l => l.rel == "self")).length = 1 ∧
    ((getCatalog wCatalogEnv browseTemplateYMD ["1998"] "PROV" "c1" "http://e"
      "http://e/PROV/collections/c1/1998").links.filter
      (fun l => l.rel == "root")).length = 1 ∧
    (getCatalog wCatalogEnv browseTemplateYMD ["1998"] "PROV" "c1" "http://e"
      "http://e/PROV/collections/c1/1998").links.filter
      (fun l => l.rel == "parent") =
      [{ rel := "parent",
         href := jsParentUrl "http://e/PROV/collections/c1/1998" }] ∧
    ((getCatalog wCatalogEnv browseTemplateYMD ["1998"] "PROV" "c1" "http://e"
      "http://e/PROV/collections/c1/1998").links.filter
      (fun l => l.rel == "child") = [] ∨
      (getCatalog wCatalogEnv browseTemplateYMD ["1998"] "PROV" "c1" "http://e"
      "http://e/PROV/collections/c1/1998").links.filter
      (fun l => l.rel == "item") = []) :=
  C9_catalog_link_invariants wCatalogEnv browseTemplateYMD ["1998"] "PROV" "c1"
    "http://e" "http://e/PROV/collections/c1/1998" "C1200000001-PROV" rfl

/-- C8: getCatalog maps date path segments positionally; with only a year it adds exactly
one child link per month in facets.months and no item links; with year and month, exactly
one child link per day in facets.days and no item links; with year, month and day,
exactly one item link per granule id in facets.itemids and no child links (the terminal
state). -/
theorem C8_browse_catalog_date_segments (env : CatalogEnv) (p c ru su cid : String)
    (h : env.stacIdToCmrCollectionId p c = some cid)
    (y m d : String) (hy : y ≠ "") (hm : m ≠ "") (hd : d ≠ "") :
    (((getCatalog env browseTemplateYMD [y] p c ru su).links.filter
        (fun l => l.rel == "child")).length =
      (env.getGranuleTemporalFacets (env.stacCollectionToCmrParams p c)
        (some y) none none).months.length ∧
      (getCatalog env browseTemplateYMD [y] p c ru su).links.filter
        (fun l => l.rel == "item") = []) ∧
    (((getCatalog env browseTemplateYMD [y, m] p c ru su).links.filter
        (fun l => l.rel == "child")).length =
      (env.getGranuleTemporalFacets (env.stacCollectionToCmrParams p c)
        (some y) (some m) none).days.length ∧
      (getCatalog env browseTemplateYMD [y, m] p c ru su).links.filter
        (fun l => l.rel == "item") = []) ∧
    (((getCatalog env browseTemplateYMD [y, m, d] p c ru su).links.filter
        (fun l => l.rel == "item")).length =
      (env.getGranuleTemporalFacets (env.stacCollectionToCmrParams p c)
        (some y) (some m) (some d)).itemids.length ∧
      (getCatalog env browseTemplateYMD [y, m, d] p c ru su).links.filter
        (fun l => l.rel == "child") = []) := by
  have ty : jsTruthyStr (some y) = true := by simp [jsTruthyStr, hy]
  have tm : jsTruthyStr (some m) = true := by simp [jsTruthyStr, hm]
  have td : jsTruthyStr (some d) = true := by simp [jsTruthyStr, hd]
  refine ⟨⟨?_, ?_⟩, ⟨?_, ?_⟩, ⟨?_, ?_⟩⟩
  · simp only [getCatalog, h, CatalogResult.links,
      show browseValue browseTemplateYMD [y] "day" = none from rfl,
      show browseValue browseTemplateYMD [y] "month" = none from rfl,
      show browseValue browseTemplateYMD [y] "year" = some y from rfl,
      show jsTruthyStr none = false from rfl, ty, Bool.false_eq_true, if_false, if_true]
    rw [foldl_append_links _ _ (fun cc x => rfl), base_links _ rfl, List.filter_append,
      base3_filter_ne _ _ _ _ (by decide) (by decide) (by decide),
      filter_rel_all_eq _ "child" (mem_map_child _ _ _), List.nil_append,
      List.length_map]
  · simp only [getCatalog, h, CatalogResult.links,
      show browseValue browseTemplateYMD [y] "day" = none from rfl,
      show browseValue browseTemplateYMD [y] "month" = none from rfl,
      show browseValue browseTemplateYMD [y] "year" = some y from rfl,
      show jsTruthyStr none = false from rfl, ty, Bool.false_eq_true, if_false, if_true]
    rw [foldl_append_links _ _ (fun cc x => rfl), base_links _ rfl, List.filter_append,
      base3_filter_ne _ _ _ _ (by decide) (by decide) (by decide),
      filter_rel_all_ne _ "child" "item" (mem_map_child _ _ _) (by decide),
      List.nil_append]
  · simp only [getCatalog, h, CatalogResult.links,
      show browseValue browseTemplateYMD [y, m] "day" = none from rfl,
      show browseValue browseTemplateYMD [y, m] "month" = some m from rfl,
      show browseValue browseTemplateYMD [y, m] "year" = some y from rfl,
      show jsTruthyStr none = false from rfl, tm, Bool.false_eq_true, if_false, if_true]
    rw [foldl_append_links _ _ (fun cc x => rfl), base_links _ rfl, List.filter_append,
      base3_filter_ne _ _ _ _ (by decide) (by decide) (by decide),
      filter_rel_all_eq _ "child" (mem_map_child _ _ _), List.nil_append,
      List.length_map]
  · simp only [getCatalog, h, CatalogResult.links,
      show browseValue browseTemplateYMD [y, m] "day" = none from rfl,
      show browseValue browseTemplateYMD [y, m] "month" = some m from rfl,
      show browseValue browseTemplateYMD [y, m] "year" = some y from rfl,
      show jsTruthyStr none = false from rfl, tm, Bool.false_eq_true, if_false, if_true]
    rw [foldl_append_links _ _ (fun cc x => rfl), base_links _ rfl, List.filter_append,
      base3_filter_ne _ _ _ _ (by decide) (by decide) (by decide),
      filter_rel_all_ne _ "child" "item" (mem_map_child _ _ _) (by decide),
      List.nil_append]
  · simp only [getCatalog, h, CatalogResult.links,
      show browseValue browseTemplateYMD [y, m, d] "day" = some d from rfl,
      show browseValue browseTemplateYMD [y, m, d] "month" = some m from rfl,
      show browseValue browseTemplateYMD [y, m, d] "year" = some y from rfl,
      td, if_true]
    rw [foldl_append_links _ _ (fun cc x => rfl), base_links _ rfl, List.filter_append,
      base3_filter_ne _ _ _ _ (by decide) (by decide) (by decide),
      filter_rel_all_eq _ "item" (mem_map_item _ _ _), List.nil_append, List.length_map]
  · simp only [getCatalog, h, CatalogResult.links,
      show browseValue browseTemplateYMD [y, m, d] "day" = some d from rfl,
      show browseValue browseTemplateYMD [y, m, d] "month" = some m from rfl,
      show browseValue browseTemplateYMD [y, m, d] "year" = some y from rfl,
      td, if_true]
    rw [foldl_append_links _ _ (fun cc x => rfl), base_links _ rfl, List.filter_append,
      base3_filter_ne _ _ _ _ (by decide) (by decide) (by decide),
      filter_rel_all_ne _ "item" "child" (mem_map_item _ _ _) (by decide),
      List.nil_append]

/-- C8 witness: the three date levels at a concrete environment whose facets hold two
months, three days and one granule id. -/
theorem C8_browse_catalog_date_segments_witness :
    (((getCatalog wCatalogEnv browseTemplateYMD ["1998"] "PROV" "c1" "r" "s").links.filter
        (fun l => l.rel == "child")).length =
      (wCatalogEnv.getGranuleTemporalFacets (wCatalogEnv.stacCollectionToCmrParams
        "PROV" "c1") (some "1998") none none).months.length ∧
      (getCatalog wCatalogEnv browseTemplateYMD ["1998"] "PROV" "c1" "r" "s").links.filter
        (fun l => l.rel == "item") = []) ∧
    (((getCatalog wCatalogEnv browseTemplateYMD ["1998", "05"] "PROV" "c1" "r"
        "s").links.filter (fun l => l.rel == "child")).length =
      (wCatalogEnv.getGranuleTemporalFacets (wCatalogEnv.stacCollectionToCmrParams
        "PROV" "c1") (some "1998") (some "05") none).days.length ∧
      (getCatalog wCatalogEnv browseTemplateYMD ["1998", "05"] "PROV" "c1" "r"
        "s").links.filter (fun l => l.rel == "item") = []) ∧
    (((getCatalog wCatalogEnv browseTemplateYMD ["1998", "05", "20"] "PROV" "c1" "r"
        "s").links.filter (fun l => l.rel == "item")).length =
      (wCatalogEnv.getGranuleTemporalFacets (wCatalogEnv.stacCollectionToCmrParams
        "PROV" "c1") (some "1998") (some "05") (some "20")).itemids.length ∧
      (getCatalog wCatalogEnv browseTemplateYMD ["1998", "05", "20"] "PROV" "c1" "r"
        "s").links.filter (fun l => l.rel == "child") = []) :=
  C8_browse_catalog_date_segments wCatalogEnv "PROV" "c1" "r" "s" "C1200000001-PROV" rfl
    "1998" "05" "20" (by decide) (by decide) (by decide)
